import Mathlib

/-!
Verification of the Ollamana HTTP relay (ver2.go).

The development shallowly embeds the server's request handlers:

* the streaming relay loop shared by callGenerateAPI and callChatAPI
  (scanner over the backend body, one JSON chunk per line, forwarded as
  Server-Sent Events);
* the pre-stream phases of the four action handlers and of
  handleListModels (method check, JSON decode, backend status check).

External library functions are modelled as oracles attached to the input:
json.Unmarshal of a backend line is the line's `parse` field,
json.Decoder.Decode of the client body is the handler's `decoded`
argument, and the outcome of the single outbound HTTP call is a
`BackendResult` value.  Machine I/O (bufio.Scanner's 65536-byte default
token limit) is modelled by an explicit byte-length bound per line.
-/

/-- Message structure for the chat API (struct Message in ver2.go). -/
structure Message where
  role : String
  content : String
deriving Repr, DecidableEq

/-- OllamaResponseChunk: one decoded streaming chunk (generate and chat).
`message` is a pointer in Go, hence an Option here. -/
structure OllamaResponseChunk where
  model : String
  created_at : String
  response : String
  message : Option Message
  done : Bool
deriving Repr, DecidableEq

/-- ClientRequest: the unified action request decoded from the client body. -/
structure ClientRequest where
  actionType : String
  model : String
  prompt : String
  messages : List Message
deriving Repr, DecidableEq

/-- OllamaModel: a single model name from the tags endpoint. -/
structure OllamaModel where
  name : String
deriving Repr, DecidableEq

/-- OllamaTagsResponse: the decoded body of the tags endpoint. -/
structure OllamaTagsResponse where
  models : List OllamaModel
deriving Repr, DecidableEq

/-- Base URL constant from ver2.go. -/
def ollamaBaseURL : String := "http://localhost:11434"

/-- Tags endpoint URL constant from ver2.go. -/
def ollamaTagsAPI : String := ollamaBaseURL ++ "/api/tags"

/-- One line of the backend response body as it stands on the wire.
`raw` is the text scanner.Text() would return for it; `parse` is the
result of json.Unmarshal of `raw` into OllamaResponseChunk (`none` when
unmarshalling returns an error), recorded as an oracle because the Go
JSON decoder itself is outside the embedding. -/
structure BackendLine where
  raw : String
  parse : Option OllamaResponseChunk
deriving Repr, DecidableEq

/-- UTF-8 byte length of a character list, as Go measures line bytes. -/
def utf8Len : List Char → Nat
  | [] => 0
  | c :: rest => c.utf8Size + utf8Len rest

/-- bufio.MaxScanTokenSize, the default buffer bound of bufio.Scanner. -/
def maxScanTokenSize : Nat := 65536

/-- strings.TrimSpace: drop leading and trailing whitespace.  Modelled
over the character list so that it is kernel-computable; the whitespace
class is Lean's Char.isWhitespace, which covers the ASCII whitespace Go
trims (Go additionally trims some rare Unicode space characters,
irrelevant to the claims). -/
def trimSpace (s : String) : String :=
  String.mk (((s.data.dropWhile Char.isWhitespace).reverse.dropWhile Char.isWhitespace).reverse)

/-- Whether bufio.Scanner with its default buffer delivers this line.
A line needs its bytes and the terminating newline inside the
65536-byte buffer, so content of 65536 bytes or more makes Scan fail
with ErrTooLong before the line is delivered. -/
def BackendLine.fitsScanner (l : BackendLine) : Bool :=
  utf8Len l.raw.data < maxScanTokenSize

/-- An event written to the client while in SSE mode: either a data
event carrying one raw backend line, or the terminal DONE event. -/
inductive SSEvent where
  | data (line : String)
  | done
deriving Repr, DecidableEq

/-- Wire text of an event, exactly as fmt.Fprintf produces it. -/
def SSEvent.render : SSEvent → String
  | .data line => "data: " ++ line ++ "\n\n"
  | .done => "data: [DONE]\n\n"

/-- chunk.Response != "" — the generate loop's non-empty output test. -/
def chunkHasGenerateOutput (c : OllamaResponseChunk) : Bool :=
  c.response != ""

/-- chunk.Message != nil && chunk.Message.Content != "" — the chat
loop's non-empty output test. -/
def chunkHasChatOutput (c : OllamaResponseChunk) : Bool :=
  match c.message with
  | some m => m.content != ""
  | none => false

/-- The scanner loop shared by callGenerateAPI and callChatAPI,
parameterised by the API's non-empty-output test.  Per iteration:
Scan() fails at a line that exceeds the buffer (loop exits, the error is
only logged); an empty line is skipped; an unmarshal failure is logged
and skipped; a chunk passing the output test emits one data event with
the original raw line; a chunk with Done set emits the terminal event
and breaks. -/
def relayLoop (hasOutput : OllamaResponseChunk → Bool) : List BackendLine → List SSEvent
  | [] => []
  | l :: rest =>
    if l.fitsScanner = false then []
    else if l.raw == "" then relayLoop hasOutput rest
    else
      match l.parse with
      | none => relayLoop hasOutput rest
      | some chunk =>
        (if hasOutput chunk then [SSEvent.data l.raw] else [])
          ++ (if chunk.done then [SSEvent.done] else relayLoop hasOutput rest)

/-- The response the relay hands the client: a synchronous http.Error,
an SSE stream of events, a plain-text body (pull and delete success), or
a re-encoded JSON body (list success). -/
inductive RelayResponse where
  | httpError (status : Nat) (message : String)
  | stream (events : List SSEvent)
  | plain (body : String)
  | json (tags : OllamaTagsResponse)
deriving Repr, DecidableEq

/-- A successful outbound HTTP exchange: status code, the body as
io.ReadAll would return it, and the body as the line sequence the
scanner walks.  Each code path reads the body once, in exactly one of
the two forms, so no claim depends on the two views being coupled. -/
structure BackendResp where
  statusCode : Nat
  bodyText : String
  bodyLines : List BackendLine
deriving Repr, DecidableEq

/-- Outcome of client.Do: a transport error (err.Error() recorded) or a
response. -/
inductive BackendResult where
  | connError (errMsg : String)
  | ok (resp : BackendResp)
deriving Repr, DecidableEq

/-- callGenerateAPI after the request is built: transport error maps to
502 with the connectivity hint; a non-200 status maps to http.Error with
that status and the trimmed body inside the fixed message; 200 enters
SSE mode and runs the scanner loop with the generate output test.
(trimSpace stands for strings.TrimSpace; request marshalling errors
and the no-Flusher path cannot arise for this fixed payload and server
and are not modelled.) -/
def callGenerateAPI (result : BackendResult) : RelayResponse :=
  match result with
  | .connError errMsg =>
    .httpError 502 ("Could not connect to Ollama. Please ensure Ollama is running on "
      ++ ollamaBaseURL ++ ". " ++ errMsg)
  | .ok resp =>
    if resp.statusCode != 200 then
      .httpError resp.statusCode ("Ollama API error: Status " ++ toString resp.statusCode
        ++ ", Message: " ++ trimSpace resp.bodyText)
    else
      .stream (relayLoop chunkHasGenerateOutput resp.bodyLines)

/-- callChatAPI, identical to callGenerateAPI except for the output
test applied to each chunk. -/
def callChatAPI (result : BackendResult) : RelayResponse :=
  match result with
  | .connError errMsg =>
    .httpError 502 ("Could not connect to Ollama. Please ensure Ollama is running on "
      ++ ollamaBaseURL ++ ". " ++ errMsg)
  | .ok resp =>
    if resp.statusCode != 200 then
      .httpError resp.statusCode ("Ollama API error: Status " ++ toString resp.statusCode
        ++ ", Message: " ++ trimSpace resp.bodyText)
    else
      .stream (relayLoop chunkHasChatOutput resp.bodyLines)

/-- callModelPullAPI after the request is built: transport error maps to
502 with the hint; non-200 maps to http.Error with the backend status
and the trimmed body inside the fixed message; 200 writes the body back
as text/plain.  (The io.ReadAll error branch, a 500, is not modelled:
the oracle delivers the body directly.) -/
def callModelPullAPI (result : BackendResult) : RelayResponse :=
  match result with
  | .connError errMsg =>
    .httpError 502 ("Could not connect to Ollama. Please ensure Ollama is running on "
      ++ ollamaBaseURL ++ ". " ++ errMsg)
  | .ok resp =>
    if resp.statusCode != 200 then
      .httpError resp.statusCode ("Ollama API error pulling model: Status "
        ++ toString resp.statusCode ++ ", Message: " ++ trimSpace resp.bodyText)
    else
      .plain resp.bodyText

/-- callModelDeleteAPI, identical to callModelPullAPI except for the
message prefix (and the DELETE verb on the wire, invisible here). -/
def callModelDeleteAPI (result : BackendResult) : RelayResponse :=
  match result with
  | .connError errMsg =>
    .httpError 502 ("Could not connect to Ollama. Please ensure Ollama is running on "
      ++ ollamaBaseURL ++ ". " ++ errMsg)
  | .ok resp =>
    if resp.statusCode != 200 then
      .httpError resp.statusCode ("Ollama API error deleting model: Status "
        ++ toString resp.statusCode ++ ", Message: " ++ trimSpace resp.bodyText)
    else
      .plain resp.bodyText

/-- Which backend endpoint an action dispatches to. -/
inductive OutboundCall where
  | generate
  | chat
  | pull
  | delete
deriving Repr, DecidableEq

/-- handleOllamaAction: POST check first, then the JSON decode of the
body (its outcome passed as an oracle, err.Error() in the error case),
then dispatch on actionType with a 400 for anything unknown.  The
`backend` argument is the oracle for the single outbound call the
selected action would make. -/
def handleOllamaAction (method : String) (decoded : Except String ClientRequest)
    (backend : OutboundCall → BackendResult) : RelayResponse :=
  if method != "POST" then .httpError 405 "Method not allowed"
  else
    match decoded with
    | .error e => .httpError 400 ("Invalid request payload: " ++ e)
    | .ok clientReq =>
      if clientReq.actionType = "generate" then callGenerateAPI (backend .generate)
      else if clientReq.actionType = "chat" then callChatAPI (backend .chat)
      else if clientReq.actionType = "pull" then callModelPullAPI (backend .pull)
      else if clientReq.actionType = "delete" then callModelDeleteAPI (backend .delete)
      else .httpError 400 ("Unknown action type: " ++ clientReq.actionType)

/-- Outcome of the tags call made by handleListModels: transport error,
or a response with its status, raw body, and the outcome of
json.Decoder.Decode of that body into OllamaTagsResponse (an oracle). -/
inductive TagsBackendResult where
  | connError (errMsg : String)
  | resp (statusCode : Nat) (bodyText : String) (decoded : Except String OllamaTagsResponse)
deriving Repr

/-- handleListModels: GET check first, then the tags call; transport
error maps to 502, non-200 to http.Error with the backend status and
trimmed body, a decode failure to 500, and success re-encodes the
decoded structure as JSON. -/
def handleListModels (method : String) (backend : TagsBackendResult) : RelayResponse :=
  if method != "GET" then .httpError 405 "Method not allowed"
  else
    match backend with
    | .connError _ =>
      .httpError 502 ("Could not connect to Ollama to list models. Please ensure Ollama is running on "
        ++ ollamaTagsAPI ++ ".")
    | .resp statusCode bodyText decoded =>
      if statusCode != 200 then
        .httpError statusCode ("Ollama API error fetching models: Status "
          ++ toString statusCode ++ ", Message: " ++ trimSpace bodyText)
      else
        match decoded with
        | .error _ => .httpError 500 "Error parsing Ollama models response."
        | .ok tagsResponse => .json tagsResponse

/-- A line the scanner loop walks through without stopping: it fits the
scanner buffer and is blank, unparsable, or a chunk whose Done flag is
unset. -/
def BackendLine.passthrough (l : BackendLine) : Prop :=
  l.fitsScanner = true ∧
    (l.raw = "" ∨ l.parse = none ∨ ∃ c, l.parse = some c ∧ c.done = false)

/-- The data events the loop forwards for one line it walks through. -/
def forwardedEvents (hasOutput : OllamaResponseChunk → Bool) (l : BackendLine) : List SSEvent :=
  if l.raw == "" then []
  else
    match l.parse with
    | none => []
    | some c => if hasOutput c then [SSEvent.data l.raw] else []

/-- The data events the loop forwards for a list of lines it walks
through. -/
def eventsOf (hasOutput : OllamaResponseChunk → Bool) : List BackendLine → List SSEvent
  | [] => []
  | l :: rest => forwardedEvents hasOutput l ++ eventsOf hasOutput rest

/-- A backend line carrying a chunk that passes the output test, with
the completion flag equal to isLast. -/
def outputLine (hasOutput : OllamaResponseChunk → Bool) (isLast : Bool) (l : BackendLine) : Prop :=
  l.fitsScanner = true ∧ l.raw ≠ "" ∧
    ∃ c, l.parse = some c ∧ hasOutput c = true ∧ c.done = isLast

/-- Concrete chunk with output for both APIs, completion flag unset. -/
def wChunkHi : OllamaResponseChunk := ⟨"m", "t", "Hi", some ⟨"assistant", "Hi"⟩, false⟩

/-- Concrete chunk with output for both APIs, completion flag set. -/
def wChunkLast : OllamaResponseChunk := ⟨"m", "t", "there", some ⟨"assistant", "there"⟩, true⟩

/-- Concrete chunk with empty output for both APIs, completion flag set. -/
def wChunkDoneEmpty : OllamaResponseChunk := ⟨"m", "t", "", none, true⟩

/-- Concrete chunk with output for both APIs, completion flag unset. -/
def wChunkMore : OllamaResponseChunk := ⟨"m", "t", "more", some ⟨"assistant", "more"⟩, false⟩

/-- Concrete backend lines used by the witnesses below. -/
def wLine1 : BackendLine := ⟨"chunk-one", some wChunkHi⟩

def wLine2 : BackendLine := ⟨"chunk-two", some wChunkLast⟩

def wLineDoneEmpty : BackendLine := ⟨"chunk-done", some wChunkDoneEmpty⟩

def wLineMore : BackendLine := ⟨"chunk-more", some wChunkMore⟩

def wLineBad : BackendLine := ⟨"not-json", none⟩

/-- Concrete chunk with empty output for both APIs, completion flag unset. -/
def wChunkEmptyMid : OllamaResponseChunk := ⟨"m", "t", "", none, false⟩

def wLineEmptyMid : BackendLine := ⟨"chunk-empty", some wChunkEmptyMid⟩

/-- A placeholder backend oracle for validation-path witnesses (never
consulted on those paths). -/
def wBackendOracle : OutboundCall → BackendResult := fun _ => .connError "unused"

def wTagsOracle : TagsBackendResult := .connError "unused"

/-- A decoded client request with an unrecognised actionType. -/
def wUnknownReq : ClientRequest := ⟨"frobnicate", "llama2", "", []⟩

/-- A 65537-byte line, one byte past the default scanner buffer. -/
def bigRaw : String := String.mk (List.replicate 65537 'a')

def bigLine : BackendLine := ⟨bigRaw, none⟩

lemma done_not_mem_forwardedEvents (h : OllamaResponseChunk → Bool) (l : BackendLine) :
    SSEvent.done ∉ forwardedEvents h l := by
  unfold forwardedEvents
  by_cases hraw : l.raw == ""
  · simp [hraw]
  · cases hp : l.parse with
    | none => simp [hraw, hp]
    | some c =>
      by_cases hc : h c <;> simp [hraw, hp, hc]

lemma done_not_mem_eventsOf (h : OllamaResponseChunk → Bool) (ls : List BackendLine) :
    SSEvent.done ∉ eventsOf h ls := by
  induction ls with
  | nil => simp [eventsOf]
  | cons l rest ih =>
    simp only [eventsOf, List.mem_append]
    rintro (hc | hc)
    · exact done_not_mem_forwardedEvents h l hc
    · exact ih hc

lemma relayLoop_append_passthrough (h : OllamaResponseChunk → Bool)
    (ls1 ls2 : List BackendLine) (hp : ∀ l ∈ ls1, l.passthrough) :
    relayLoop h (ls1 ++ ls2) = eventsOf h ls1 ++ relayLoop h ls2 := by
  induction ls1 with
  | nil => simp [eventsOf]
  | cons l rest ih =>
    obtain ⟨hfit, hcase⟩ := hp l (List.mem_cons_self l rest)
    have ih' := ih fun x hx => hp x (List.mem_cons_of_mem _ hx)
    by_cases hraw : l.raw = ""
    · simp [relayLoop, eventsOf, forwardedEvents, hfit, hraw, ih']
    · rcases hcase with hraw' | hnone | ⟨c, hc, hdone⟩
      · exact absurd hraw' hraw
      · simp [relayLoop, eventsOf, forwardedEvents, hfit, hraw, hnone, ih']
      · simp [relayLoop, eventsOf, forwardedEvents, hfit, hraw, hc, hdone, ih']

lemma eventsOf_all_output (h : OllamaResponseChunk → Bool) (ls : List BackendLine)
    (hout : ∀ l ∈ ls, l.raw ≠ "" ∧ ∃ c, l.parse = some c ∧ h c = true) :
    eventsOf h ls = ls.map (fun l => SSEvent.data l.raw) := by
  induction ls with
  | nil => simp [eventsOf]
  | cons l rest ih =>
    obtain ⟨hraw, c, hc, hco⟩ := hout l (List.mem_cons_self l rest)
    have ih' := ih fun x hx => hout x (List.mem_cons_of_mem _ hx)
    simp [eventsOf, forwardedEvents, hraw, hc, hco, ih']


lemma relayLoop_cons_unfit (h : OllamaResponseChunk → Bool) {l : BackendLine}
    (rest : List BackendLine) (hfit : l.fitsScanner = false) :
    relayLoop h (l :: rest) = [] := by
  simp [relayLoop, hfit]

lemma relayLoop_cons_blank (h : OllamaResponseChunk → Bool) {l : BackendLine}
    (rest : List BackendLine) (hfit : l.fitsScanner = true) (hraw : l.raw = "") :
    relayLoop h (l :: rest) = relayLoop h rest := by
  simp [relayLoop, hfit, hraw]

lemma relayLoop_cons_noparse (h : OllamaResponseChunk → Bool) {l : BackendLine}
    (rest : List BackendLine) (hfit : l.fitsScanner = true) (hraw : l.raw ≠ "")
    (hp : l.parse = none) :
    relayLoop h (l :: rest) = relayLoop h rest := by
  simp [relayLoop, hfit, hraw, hp]

lemma relayLoop_cons_done (h : OllamaResponseChunk → Bool) {l : BackendLine}
    {c : OllamaResponseChunk} (rest : List BackendLine) (hfit : l.fitsScanner = true)
    (hraw : l.raw ≠ "") (hp : l.parse = some c) (hd : c.done = true) :
    relayLoop h (l :: rest) = (if h c then [SSEvent.data l.raw] else []) ++ [SSEvent.done] := by
  simp [relayLoop, hfit, hraw, hp, hd]

lemma relayLoop_cons_notdone (h : OllamaResponseChunk → Bool) {l : BackendLine}
    {c : OllamaResponseChunk} (rest : List BackendLine) (hfit : l.fitsScanner = true)
    (hraw : l.raw ≠ "") (hp : l.parse = some c) (hd : c.done = false) :
    relayLoop h (l :: rest) = (if h c then [SSEvent.data l.raw] else []) ++ relayLoop h rest := by
  simp [relayLoop, hfit, hraw, hp, hd]

lemma done_not_mem_dataPart (h : OllamaResponseChunk → Bool) (c : OllamaResponseChunk)
    (s : String) : SSEvent.done ∉ (if h c then [SSEvent.data s] else []) := by
  by_cases hc : h c <;> simp [hc]

lemma relayLoop_done_last (h : OllamaResponseChunk → Bool) (ls : List BackendLine)
    (hmem : SSEvent.done ∈ relayLoop h ls) :
    ∃ es, relayLoop h ls = es ++ [SSEvent.done] ∧ SSEvent.done ∉ es := by
  induction ls with
  | nil => simp [relayLoop] at hmem
  | cons l rest ih =>
    cases hfit : l.fitsScanner with
    | false => rw [relayLoop_cons_unfit h rest hfit] at hmem; simp at hmem
    | true =>
      by_cases hraw : l.raw = ""
      · rw [relayLoop_cons_blank h rest hfit hraw] at hmem ⊢
        exact ih hmem
      · cases hp : l.parse with
        | none =>
          rw [relayLoop_cons_noparse h rest hfit hraw hp] at hmem ⊢
          exact ih hmem
        | some c =>
          cases hd : c.done with
          | true =>
            rw [relayLoop_cons_done h rest hfit hraw hp hd]
            exact ⟨if h c then [SSEvent.data l.raw] else [], rfl, done_not_mem_dataPart h c l.raw⟩
          | false =>
            rw [relayLoop_cons_notdone h rest hfit hraw hp hd] at hmem ⊢
            rw [List.mem_append] at hmem
            have hmem' : SSEvent.done ∈ relayLoop h rest := by
              rcases hmem with hm | hm
              · exact absurd hm (done_not_mem_dataPart h c l.raw)
              · exact hm
            obtain ⟨es, heq, hnot⟩ := ih hmem'
            refine ⟨(if h c then [SSEvent.data l.raw] else []) ++ es, ?_, ?_⟩
            · rw [heq, List.append_assoc]
            · rw [List.mem_append]
              rintro (hm | hm)
              · exact done_not_mem_dataPart h c l.raw hm
              · exact hnot hm

lemma relayLoop_append_of_done_mem (h : OllamaResponseChunk → Bool)
    (ls ls2 : List BackendLine) (hmem : SSEvent.done ∈ relayLoop h ls) :
    relayLoop h (ls ++ ls2) = relayLoop h ls := by
  induction ls with
  | nil => simp [relayLoop] at hmem
  | cons l rest ih =>
    rw [List.cons_append]
    cases hfit : l.fitsScanner with
    | false =>
      rw [relayLoop_cons_unfit h rest hfit] at hmem
      simp at hmem
    | true =>
      by_cases hraw : l.raw = ""
      · rw [relayLoop_cons_blank h rest hfit hraw] at hmem
        rw [relayLoop_cons_blank h (rest ++ ls2) hfit hraw,
          relayLoop_cons_blank h rest hfit hraw]
        exact ih hmem
      · cases hp : l.parse with
        | none =>
          rw [relayLoop_cons_noparse h rest hfit hraw hp] at hmem
          rw [relayLoop_cons_noparse h (rest ++ ls2) hfit hraw hp,
            relayLoop_cons_noparse h rest hfit hraw hp]
          exact ih hmem
        | some c =>
          cases hd : c.done with
          | true =>
            rw [relayLoop_cons_done h (rest ++ ls2) hfit hraw hp hd,
              relayLoop_cons_done h rest hfit hraw hp hd]
          | false =>
            rw [relayLoop_cons_notdone h rest hfit hraw hp hd] at hmem
            rw [List.mem_append] at hmem
            have hmem' : SSEvent.done ∈ relayLoop h rest := by
              rcases hmem with hm | hm
              · exact absurd hm (done_not_mem_dataPart h c l.raw)
              · exact hm
            rw [relayLoop_cons_notdone h (rest ++ ls2) hfit hraw hp hd,
              relayLoop_cons_notdone h rest hfit hraw hp hd, ih hmem']

lemma done_not_mem_relayLoop (h : OllamaResponseChunk → Bool) (ls : List BackendLine)
    (hnd : ∀ l ∈ ls, ∀ c, l.parse = some c → c.done = false) :
    SSEvent.done ∉ relayLoop h ls := by
  induction ls with
  | nil => simp [relayLoop]
  | cons l rest ih =>
    have ih' := ih fun x hx => hnd x (List.mem_cons_of_mem _ hx)
    cases hfit : l.fitsScanner with
    | false => rw [relayLoop_cons_unfit h rest hfit]; simp
    | true =>
      by_cases hraw : l.raw = ""
      · rw [relayLoop_cons_blank h rest hfit hraw]
        exact ih'
      · cases hp : l.parse with
        | none =>
          rw [relayLoop_cons_noparse h rest hfit hraw hp]
          exact ih'
        | some c =>
          have hd : c.done = false := hnd l (List.mem_cons_self l rest) c hp
          rw [relayLoop_cons_notdone h rest hfit hraw hp hd, List.mem_append]
          rintro (hm | hm)
          · exact done_not_mem_dataPart h c l.raw hm
          · exact ih' hm

lemma relayLoop_skip_silent (h : OllamaResponseChunk → Bool)
    (ls1 rest : List BackendLine) {l : BackendLine} {c : OllamaResponseChunk}
    (hp : ∀ x ∈ ls1, x.passthrough)
    (hfit : l.fitsScanner = true) (hraw : l.raw ≠ "")
    (hc : l.parse = some c) (hdone : c.done = false) (hempty : h c = false) :
    relayLoop h (ls1 ++ l :: rest) = relayLoop h (ls1 ++ rest) := by
  rw [relayLoop_append_passthrough h ls1 (l :: rest) hp,
    relayLoop_append_passthrough h ls1 rest hp,
    relayLoop_cons_notdone h rest hfit hraw hc hdone, hempty]
  simp

lemma relayLoop_skip_noparse (h : OllamaResponseChunk → Bool)
    (ls1 rest : List BackendLine) {l : BackendLine}
    (hp : ∀ x ∈ ls1, x.passthrough)
    (hfit : l.fitsScanner = true) (hraw : l.raw ≠ "") (hnone : l.parse = none) :
    relayLoop h (ls1 ++ l :: rest) = relayLoop h (ls1 ++ rest) := by
  rw [relayLoop_append_passthrough h ls1 (l :: rest) hp,
    relayLoop_append_passthrough h ls1 rest hp,
    relayLoop_cons_noparse h rest hfit hraw hnone]

lemma outputLine_passthrough (h : OllamaResponseChunk → Bool) (l : BackendLine)
    (hl : outputLine h false l) : l.passthrough := by
  obtain ⟨hfit, _, c, hc, _, hd⟩ := hl
  exact ⟨hfit, Or.inr (Or.inr ⟨c, hc, hd⟩)⟩

lemma relayLoop_output_stream (h : OllamaResponseChunk → Bool)
    (init : List BackendLine) (last : BackendLine)
    (hinit : ∀ l ∈ init, outputLine h false l) (hlast : outputLine h true last) :
    relayLoop h (init ++ [last]) =
      (init ++ [last]).map (fun l => SSEvent.data l.raw) ++ [SSEvent.done] := by
  have hp : ∀ l ∈ init, l.passthrough := fun l hl =>
    outputLine_passthrough h l (hinit l hl)
  rw [relayLoop_append_passthrough h init [last] hp]
  obtain ⟨hfit, hraw, c, hc, hout, hd⟩ := hlast
  rw [relayLoop_cons_done h [] hfit hraw hc hd, hout,
    eventsOf_all_output h init (fun l hl => ⟨(hinit l hl).2.1, by
      obtain ⟨_, _, c', hc', hout', _⟩ := hinit l hl
      exact ⟨c', hc', hout'⟩⟩)]
  simp

lemma callGenerateAPI_ok200 (body : String) (lines : List BackendLine) :
    callGenerateAPI (.ok ⟨200, body, lines⟩) =
      .stream (relayLoop chunkHasGenerateOutput lines) := rfl

lemma callChatAPI_ok200 (body : String) (lines : List BackendLine) :
    callChatAPI (.ok ⟨200, body, lines⟩) =
      .stream (relayLoop chunkHasChatOutput lines) := rfl

lemma utf8Len_replicate (n : Nat) : utf8Len (List.replicate n 'a') = n := by
  induction n with
  | zero => rfl
  | succ k ih =>
    rw [List.replicate_succ]
    show 'a'.utf8Size + utf8Len (List.replicate k 'a') = k + 1
    rw [ih, show ('a'.utf8Size) = 1 from by decide]
    omega

lemma bigLine_unfit : bigLine.fitsScanner = false := by
  have h1 : utf8Len bigLine.raw.data = 65537 := utf8Len_replicate 65537
  unfold BackendLine.fitsScanner
  rw [h1]
  rfl

lemma wLine1_passthrough : wLine1.passthrough :=
  ⟨by decide, Or.inr (Or.inr ⟨wChunkHi, rfl, rfl⟩)⟩

/-- C1: for every generate or chat request where the backend responds
with status 200 and emits a stream of chunks, each delivered by the
scanner and carrying non-empty output content, the stream ending with
the one chunk whose completion flag is set, the client receives exactly
one data event per chunk — the wire text being "data: " plus the
original raw backend line plus a blank line — followed by exactly one
terminal "data: [DONE]" event, in backend emission order with no
reordering or coalescing. -/
theorem claim1_stream_forwarded_in_order
    (bodyG bodyC : String) (initG initC : List BackendLine) (lastG lastC : BackendLine)
    (hG : ∀ l ∈ initG, outputLine chunkHasGenerateOutput false l)
    (hGl : outputLine chunkHasGenerateOutput true lastG)
    (hC : ∀ l ∈ initC, outputLine chunkHasChatOutput false l)
    (hCl : outputLine chunkHasChatOutput true lastC) :
    callGenerateAPI (.ok ⟨200, bodyG, initG ++ [lastG]⟩) =
      .stream ((initG ++ [lastG]).map (fun l => SSEvent.data l.raw) ++ [SSEvent.done])
    ∧ callChatAPI (.ok ⟨200, bodyC, initC ++ [lastC]⟩) =
      .stream ((initC ++ [lastC]).map (fun l => SSEvent.data l.raw) ++ [SSEvent.done])
    ∧ (relayLoop chunkHasGenerateOutput (initG ++ [lastG])).map SSEvent.render =
      (initG ++ [lastG]).map (fun l => "data: " ++ l.raw ++ "\n\n") ++ ["data: [DONE]\n\n"]
    ∧ (relayLoop chunkHasChatOutput (initC ++ [lastC])).map SSEvent.render =
      (initC ++ [lastC]).map (fun l => "data: " ++ l.raw ++ "\n\n") ++ ["data: [DONE]\n\n"] := by
  have hGs := relayLoop_output_stream chunkHasGenerateOutput initG lastG hG hGl
  have hCs := relayLoop_output_stream chunkHasChatOutput initC lastC hC hCl
  refine ⟨?_, ?_, ?_, ?_⟩
  · rw [callGenerateAPI_ok200, hGs]
  · rw [callChatAPI_ok200, hCs]
  · rw [hGs]; simp [SSEvent.render]
  · rw [hCs]; simp [SSEvent.render]

/-- Witness for C1: a concrete two-chunk stream for each API. -/
theorem claim1_witness :
    callGenerateAPI (.ok ⟨200, "", [wLine1] ++ [wLine2]⟩) =
      .stream (([wLine1] ++ [wLine2]).map (fun l => SSEvent.data l.raw) ++ [SSEvent.done])
    ∧ callChatAPI (.ok ⟨200, "", [wLine1] ++ [wLine2]⟩) =
      .stream (([wLine1] ++ [wLine2]).map (fun l => SSEvent.data l.raw) ++ [SSEvent.done]) := by
  have hsing : ∀ h' : OllamaResponseChunk → Bool, h' wChunkHi = true →
      ∀ l ∈ [wLine1], outputLine h' false l := by
    intro h' hh l hl
    rw [List.mem_singleton] at hl
    subst hl
    exact ⟨by decide, by decide, wChunkHi, rfl, hh, rfl⟩
  have h := claim1_stream_forwarded_in_order "" "" [wLine1] [wLine1] wLine2 wLine2
    (hsing _ (by decide)) ⟨by decide, by decide, wChunkLast, rfl, by decide, rfl⟩
    (hsing _ (by decide)) ⟨by decide, by decide, wChunkLast, rfl, by decide, rfl⟩
  exact ⟨h.1, h.2.1⟩

/-- C2: in any backend stream, the terminal event appears at most once
and only in last position; once it has been emitted the loop reads no
further backend lines (appending more backend output cannot change the
emitted events); a delivered chunk with the completion flag set, reached
through lines the loop walks past, does produce the terminal event; and
a stream that ends without any parsed chunk signalling completion
produces no terminal event at all. -/
theorem claim2_terminal_event_iff_completion (h : OllamaResponseChunk → Bool) :
    (∀ ls : List BackendLine, (relayLoop h ls).count SSEvent.done ≤ 1)
    ∧ (∀ ls : List BackendLine, SSEvent.done ∈ relayLoop h ls →
        (∃ es, relayLoop h ls = es ++ [SSEvent.done] ∧ SSEvent.done ∉ es)
        ∧ ∀ ls2, relayLoop h (ls ++ ls2) = relayLoop h ls)
    ∧ (∀ (ls1 rest : List BackendLine) (l : BackendLine) (c : OllamaResponseChunk),
        (∀ x ∈ ls1, x.passthrough) → l.fitsScanner = true → l.raw ≠ "" →
        l.parse = some c → c.done = true →
        SSEvent.done ∈ relayLoop h (ls1 ++ l :: rest))
    ∧ (∀ ls : List BackendLine,
        (∀ l ∈ ls, ∀ c, l.parse = some c → c.done = false) →
        SSEvent.done ∉ relayLoop h ls) := by
  refine ⟨?_, ?_, ?_, ?_⟩
  · intro ls
    by_cases hmem : SSEvent.done ∈ relayLoop h ls
    · obtain ⟨es, heq, hnot⟩ := relayLoop_done_last h ls hmem
      rw [heq]
      simp [List.count_append, List.count_eq_zero.mpr hnot]
    · simp [List.count_eq_zero.mpr hmem]
  · intro ls hmem
    exact ⟨relayLoop_done_last h ls hmem, fun ls2 => relayLoop_append_of_done_mem h ls ls2 hmem⟩
  · intro ls1 rest l c hp hfit hraw hc hd
    rw [relayLoop_append_passthrough h ls1 (l :: rest) hp,
      relayLoop_cons_done h rest hfit hraw hc hd]
    simp
  · exact done_not_mem_relayLoop h

/-- Witness for C2: concrete streams with and without a completion
chunk, under the generate output test. -/
theorem claim2_witness :
    (relayLoop chunkHasGenerateOutput [wLine1, wLineDoneEmpty]).count SSEvent.done ≤ 1
    ∧ SSEvent.done ∈ relayLoop chunkHasGenerateOutput ([wLine1] ++ wLineDoneEmpty :: [])
    ∧ SSEvent.done ∉ relayLoop chunkHasGenerateOutput [wLine1] := by
  obtain ⟨h1, _, h3, h4⟩ := claim2_terminal_event_iff_completion chunkHasGenerateOutput
  refine ⟨h1 [wLine1, wLineDoneEmpty], ?_, ?_⟩
  · refine h3 [wLine1] [] wLineDoneEmpty wChunkDoneEmpty ?_ (by decide) (by decide) rfl rfl
    intro x hx
    rw [List.mem_singleton] at hx
    subst hx
    exact wLine1_passthrough
  · refine h4 [wLine1] ?_
    intro l hl c hc
    rw [List.mem_singleton] at hl
    subst hl
    have : some wChunkHi = some c := hc
    cases this
    rfl

/-- Counterexample to C3 as stated: a chunk with empty output content
but the completion flag set does interrupt processing — the subsequent
well-formed chunk is never forwarded. -/
theorem claim3_counterexample :
    relayLoop chunkHasGenerateOutput [wLineDoneEmpty, wLineMore] = [SSEvent.done]
    ∧ SSEvent.data "chunk-more" ∉ relayLoop chunkHasGenerateOutput [wLineDoneEmpty, wLineMore] := by
  decide

/-- C3 (amended): for every backend chunk whose output fragment is empty
(empty response text for generate; absent message or empty message
content for chat) and whose completion flag is unset, the relay forwards
no data event for that chunk and processes all subsequent chunks exactly
as it would without it. -/
theorem claim3_empty_chunk_skipped
    (ls1 rest ls1' rest' : List BackendLine) (lG lC : BackendLine)
    (cG cC : OllamaResponseChunk)
    (hpG : ∀ x ∈ ls1, x.passthrough) (hpC : ∀ x ∈ ls1', x.passthrough)
    (hfitG : lG.fitsScanner = true) (hrawG : lG.raw ≠ "")
    (hcG : lG.parse = some cG) (hdG : cG.done = false) (hemptyG : cG.response = "")
    (hfitC : lC.fitsScanner = true) (hrawC : lC.raw ≠ "")
    (hcC : lC.parse = some cC) (hdC : cC.done = false)
    (hemptyC : cC.message = none ∨ ∃ m, cC.message = some m ∧ m.content = "") :
    relayLoop chunkHasGenerateOutput (ls1 ++ lG :: rest) =
      relayLoop chunkHasGenerateOutput (ls1 ++ rest)
    ∧ relayLoop chunkHasChatOutput (ls1' ++ lC :: rest') =
      relayLoop chunkHasChatOutput (ls1' ++ rest') := by
  constructor
  · refine relayLoop_skip_silent chunkHasGenerateOutput ls1 rest hpG hfitG hrawG hcG hdG ?_
    simp [chunkHasGenerateOutput, hemptyG]
  · refine relayLoop_skip_silent chunkHasChatOutput ls1' rest' hpC hfitC hrawC hcC hdC ?_
    rcases hemptyC with hm | ⟨m, hm, hmc⟩
    · simp [chunkHasChatOutput, hm]
    · simp [chunkHasChatOutput, hm, hmc]

/-- Witness for the amended C3: an empty non-final chunk in the middle
of a stream changes nothing. -/
theorem claim3_witness :
    relayLoop chunkHasGenerateOutput ([wLine1] ++ wLineEmptyMid :: [wLine2]) =
      relayLoop chunkHasGenerateOutput ([wLine1] ++ [wLine2])
    ∧ relayLoop chunkHasChatOutput ([wLine1] ++ wLineEmptyMid :: [wLine2]) =
      relayLoop chunkHasChatOutput ([wLine1] ++ [wLine2]) := by
  have hp : ∀ x ∈ [wLine1], x.passthrough := by
    intro x hx
    rw [List.mem_singleton] at hx
    subst hx
    exact wLine1_passthrough
  exact claim3_empty_chunk_skipped [wLine1] [wLine2] [wLine1] [wLine2]
    wLineEmptyMid wLineEmptyMid wChunkEmptyMid wChunkEmptyMid hp hp
    (by decide) (by decide) rfl rfl rfl
    (by decide) (by decide) rfl rfl (Or.inl rfl)

/-- C4: a delivered backend line that fails to parse as a JSON chunk is
skipped — no event is forwarded for it and the stream is not terminated;
the relay's output with the malformed line in place is exactly its
output without it, so all subsequent well-formed lines still arrive
correctly and in order. -/
theorem claim4_malformed_line_skipped
    (ls1 rest ls1' rest' : List BackendLine) (badG badC : BackendLine)
    (hpG : ∀ x ∈ ls1, x.passthrough) (hpC : ∀ x ∈ ls1', x.passthrough)
    (hfitG : badG.fitsScanner = true) (hrawG : badG.raw ≠ "") (hbG : badG.parse = none)
    (hfitC : badC.fitsScanner = true) (hrawC : badC.raw ≠ "") (hbC : badC.parse = none) :
    relayLoop chunkHasGenerateOutput (ls1 ++ badG :: rest) =
      relayLoop chunkHasGenerateOutput (ls1 ++ rest)
    ∧ relayLoop chunkHasChatOutput (ls1' ++ badC :: rest') =
      relayLoop chunkHasChatOutput (ls1' ++ rest') :=
  ⟨relayLoop_skip_noparse chunkHasGenerateOutput ls1 rest hpG hfitG hrawG hbG,
   relayLoop_skip_noparse chunkHasChatOutput ls1' rest' hpC hfitC hrawC hbC⟩

/-- Witness for C4: a malformed line between two well-formed ones. -/
theorem claim4_witness :
    relayLoop chunkHasGenerateOutput ([wLine1] ++ wLineBad :: [wLine2]) =
      relayLoop chunkHasGenerateOutput ([wLine1] ++ [wLine2])
    ∧ relayLoop chunkHasChatOutput ([wLine1] ++ wLineBad :: [wLine2]) =
      relayLoop chunkHasChatOutput ([wLine1] ++ [wLine2]) := by
  have hp : ∀ x ∈ [wLine1], x.passthrough := by
    intro x hx
    rw [List.mem_singleton] at hx
    subst hx
    exact wLine1_passthrough
  exact claim4_malformed_line_skipped [wLine1] [wLine2] [wLine1] [wLine2]
    wLineBad wLineBad hp hp (by decide) (by decide) rfl (by decide) (by decide) rfl

/-- C5: for every generate or chat request where the backend connection
fails before any response, or where the backend responds with a
non-success status, the relay returns a single synchronous http.Error —
502 with the connectivity hint in the first case, the backend's own
status code with its trimmed error body embedded in the message in the
second — and never switches into event-stream mode, so no stream events
are emitted. -/
theorem claim5_prestream_errors_are_synchronous :
    (∀ e : String,
      callGenerateAPI (.connError e) =
        .httpError 502 ("Could not connect to Ollama. Please ensure Ollama is running on "
          ++ ollamaBaseURL ++ ". " ++ e)
      ∧ callChatAPI (.connError e) =
        .httpError 502 ("Could not connect to Ollama. Please ensure Ollama is running on "
          ++ ollamaBaseURL ++ ". " ++ e)
      ∧ ∀ ev, callGenerateAPI (.connError e) ≠ .stream ev
        ∧ callChatAPI (.connError e) ≠ .stream ev)
    ∧ (∀ resp : BackendResp, resp.statusCode ≠ 200 →
      callGenerateAPI (.ok resp) =
        .httpError resp.statusCode ("Ollama API error: Status " ++ toString resp.statusCode
          ++ ", Message: " ++ trimSpace resp.bodyText)
      ∧ callChatAPI (.ok resp) =
        .httpError resp.statusCode ("Ollama API error: Status " ++ toString resp.statusCode
          ++ ", Message: " ++ trimSpace resp.bodyText)
      ∧ ∀ ev, callGenerateAPI (.ok resp) ≠ .stream ev
        ∧ callChatAPI (.ok resp) ≠ .stream ev) := by
  constructor
  · intro e
    exact ⟨rfl, rfl, fun ev => ⟨by simp [callGenerateAPI], by simp [callChatAPI]⟩⟩
  · intro resp hst
    have hb : (resp.statusCode != 200) = true := by
      simp only [bne_iff_ne, ne_eq]
      exact hst
    refine ⟨?_, ?_, ?_⟩
    · simp only [callGenerateAPI]
      rw [if_pos hb]
    · simp only [callChatAPI]
      rw [if_pos hb]
    · intro ev
      constructor
      · simp only [callGenerateAPI]
        rw [if_pos hb]
        simp
      · simp only [callChatAPI]
        rw [if_pos hb]
        simp

/-- Witness for C5: a transport failure and a backend 500. -/
theorem claim5_witness :
    callGenerateAPI (.connError "dial tcp refused") =
      .httpError 502 ("Could not connect to Ollama. Please ensure Ollama is running on "
        ++ ollamaBaseURL ++ ". " ++ "dial tcp refused")
    ∧ callChatAPI (.ok ⟨500, "boom", []⟩) =
      .httpError 500 ("Ollama API error: Status " ++ toString 500 ++ ", Message: " ++ trimSpace "boom") := by
  obtain ⟨h1, h2⟩ := claim5_prestream_errors_are_synchronous
  exact ⟨(h1 "dial tcp refused").1, (h2 ⟨500, "boom", []⟩ (by decide)).2.1⟩

/-- C6: request validation precedes any backend call: the unified action
endpoint answers 405 to any method other than POST, 400 to a body that
does not decode, and 400 to a decoded request whose actionType is none
of generate, chat, pull, delete; the models endpoint answers 405 to any
method other than GET; and in each of these cases the response is
independent of the backend oracle, i.e. no outbound request is
consulted. -/
theorem claim6_validation_before_backend :
    (∀ (m : String) (d : Except String ClientRequest) (b : OutboundCall → BackendResult),
      m ≠ "POST" → handleOllamaAction m d b = .httpError 405 "Method not allowed")
    ∧ (∀ (e : String) (b : OutboundCall → BackendResult),
      handleOllamaAction "POST" (.error e) b =
        .httpError 400 ("Invalid request payload: " ++ e))
    ∧ (∀ (cr : ClientRequest) (b : OutboundCall → BackendResult),
      cr.actionType ≠ "generate" → cr.actionType ≠ "chat" →
      cr.actionType ≠ "pull" → cr.actionType ≠ "delete" →
      handleOllamaAction "POST" (.ok cr) b =
        .httpError 400 ("Unknown action type: " ++ cr.actionType))
    ∧ (∀ (m : String) (b : TagsBackendResult),
      m ≠ "GET" → handleListModels m b = .httpError 405 "Method not allowed")
    ∧ (∀ (m : String) (d : Except String ClientRequest) (b b' : OutboundCall → BackendResult),
      m ≠ "POST" → handleOllamaAction m d b = handleOllamaAction m d b')
    ∧ (∀ (e : String) (b b' : OutboundCall → BackendResult),
      handleOllamaAction "POST" (.error e) b = handleOllamaAction "POST" (.error e) b')
    ∧ (∀ (cr : ClientRequest) (b b' : OutboundCall → BackendResult),
      cr.actionType ≠ "generate" → cr.actionType ≠ "chat" →
      cr.actionType ≠ "pull" → cr.actionType ≠ "delete" →
      handleOllamaAction "POST" (.ok cr) b = handleOllamaAction "POST" (.ok cr) b')
    ∧ (∀ (m : String) (b b' : TagsBackendResult),
      m ≠ "GET" → handleListModels m b = handleListModels m b') := by
  refine ⟨?_, ?_, ?_, ?_, ?_, ?_, ?_, ?_⟩
  · intro m d b hm
    simp [handleOllamaAction, hm]
  · intro e b
    rfl
  · intro cr b h1 h2 h3 h4
    simp [handleOllamaAction, h1, h2, h3, h4]
  · intro m b hm
    simp [handleListModels, hm]
  · intro m d b b' hm
    simp [handleOllamaAction, hm]
  · intro e b b'
    rfl
  · intro cr b b' h1 h2 h3 h4
    simp [handleOllamaAction, h1, h2, h3, h4]
  · intro m b b' hm
    simp [handleListModels, hm]

/-- Witness for C6: wrong method, bad JSON, unknown action, wrong
method on the models endpoint. -/
theorem claim6_witness :
    handleOllamaAction "PUT" (.ok wUnknownReq) wBackendOracle =
      .httpError 405 "Method not allowed"
    ∧ handleOllamaAction "POST" (.error "unexpected end of JSON input") wBackendOracle =
      .httpError 400 ("Invalid request payload: " ++ "unexpected end of JSON input")
    ∧ handleOllamaAction "POST" (.ok wUnknownReq) wBackendOracle =
      .httpError 400 ("Unknown action type: " ++ wUnknownReq.actionType)
    ∧ handleListModels "POST" wTagsOracle = .httpError 405 "Method not allowed" := by
  obtain ⟨h1, h2, h3, h4, _⟩ := claim6_validation_before_backend
  exact ⟨h1 "PUT" (.ok wUnknownReq) wBackendOracle (by decide),
    h2 "unexpected end of JSON input" wBackendOracle,
    h3 wUnknownReq wBackendOracle (by decide) (by decide) (by decide) (by decide),
    h4 "POST" wTagsOracle (by decide)⟩

/-- Counterexample to C7's verbatim part: for a backend 404 with body
"model not found", the relay's status is 404 but its error body is the
fixed formatted message, not the backend body verbatim. -/
theorem claim7_counterexample :
    callModelPullAPI (.ok ⟨404, "model not found", []⟩) =
      .httpError 404 "Ollama API error pulling model: Status 404, Message: model not found"
    ∧ callModelPullAPI (.ok ⟨404, "model not found", []⟩) ≠
      .httpError 404 "model not found" := by
  decide

/-- C7 (amended): for every pull or delete request where the backend
returns a non-200 status, the relay responds with that same status code,
and its error body embeds the whitespace-trimmed backend body text
inside a fixed explanatory message — the body is surfaced, but not
relayed verbatim. -/
theorem claim7_error_status_and_body_surfaced
    (status : Nat) (body : String) (lines : List BackendLine)
    (hstatus : status ≠ 200) :
    (∃ pre, callModelPullAPI (.ok ⟨status, body, lines⟩) =
      .httpError status (pre ++ trimSpace body))
    ∧ (∃ pre, callModelDeleteAPI (.ok ⟨status, body, lines⟩) =
      .httpError status (pre ++ trimSpace body)) := by
  have hb : (status != 200) = true := by
    simp only [bne_iff_ne, ne_eq]
    exact hstatus
  constructor
  · refine ⟨"Ollama API error pulling model: Status " ++ toString status ++ ", Message: ", ?_⟩
    simp only [callModelPullAPI]
    rw [if_pos hb]
  · refine ⟨"Ollama API error deleting model: Status " ++ toString status ++ ", Message: ", ?_⟩
    simp only [callModelDeleteAPI]
    rw [if_pos hb]

/-- Witness for the amended C7 at status 404 and body "model not found". -/
theorem claim7_witness :
    (∃ pre, callModelPullAPI (.ok ⟨404, "model not found", []⟩) =
      .httpError 404 (pre ++ trimSpace "model not found"))
    ∧ (∃ pre, callModelDeleteAPI (.ok ⟨404, "model not found", []⟩) =
      .httpError 404 (pre ++ trimSpace "model not found")) :=
  claim7_error_status_and_body_surfaced 404 "model not found" [] (by decide)

/-- C8: for every list request where the tags endpoint returns 200 and
its body decodes to a models list, the relay responds with the JSON
re-encoding of exactly that decoded structure — the same model names in
the same order; in particular a backend answering with the single model
llama2 is relayed as the same logical set. -/
theorem claim8_list_models_preserved (bodyText : String) (tags : OllamaTagsResponse) :
    handleListModels "GET" (.resp 200 bodyText (.ok tags)) = .json tags
    ∧ (∃ out, handleListModels "GET" (.resp 200 bodyText (.ok tags)) = .json out
      ∧ out.models.map OllamaModel.name = tags.models.map OllamaModel.name)
    ∧ handleListModels "GET" (.resp 200 bodyText (.ok ⟨[⟨"llama2"⟩]⟩)) =
      .json ⟨[⟨"llama2"⟩]⟩ :=
  ⟨rfl, ⟨tags, rfl, rfl⟩, rfl⟩

/-- C10: a backend line past bufio.Scanner's default 65536-byte maximum
token size stops the generate and chat relays at that line: the emitted
events are exactly those of the preceding lines — nothing is forwarded
for the oversized line or any later line, and no terminal event is ever
emitted even if a later chunk sets the completion flag; no error event
exists to surface the failure, which is only logged. -/
theorem claim10_oversized_line_stops_stream
    (ls1 rest : List BackendLine) (big : BackendLine)
    (hp : ∀ l ∈ ls1, l.passthrough)
    (hbig : big.fitsScanner = false) :
    relayLoop chunkHasGenerateOutput (ls1 ++ big :: rest) = eventsOf chunkHasGenerateOutput ls1
    ∧ relayLoop chunkHasChatOutput (ls1 ++ big :: rest) = eventsOf chunkHasChatOutput ls1
    ∧ SSEvent.done ∉ relayLoop chunkHasGenerateOutput (ls1 ++ big :: rest)
    ∧ SSEvent.done ∉ relayLoop chunkHasChatOutput (ls1 ++ big :: rest) := by
  have hG := relayLoop_append_passthrough chunkHasGenerateOutput ls1 (big :: rest) hp
  have hC := relayLoop_append_passthrough chunkHasChatOutput ls1 (big :: rest) hp
  rw [relayLoop_cons_unfit _ rest hbig, List.append_nil] at hG hC
  refine ⟨hG, hC, ?_, ?_⟩
  · rw [hG]
    exact done_not_mem_eventsOf _ ls1
  · rw [hC]
    exact done_not_mem_eventsOf _ ls1

/-- Witness for C10: one good chunk, then a 65537-byte line, then a
well-formed completion chunk that is never reached. -/
theorem claim10_witness :
    relayLoop chunkHasGenerateOutput ([wLine1] ++ bigLine :: [wLine2]) =
      eventsOf chunkHasGenerateOutput [wLine1]
    ∧ SSEvent.done ∉ relayLoop chunkHasGenerateOutput ([wLine1] ++ bigLine :: [wLine2])
    ∧ eventsOf chunkHasGenerateOutput [wLine1] = [SSEvent.data "chunk-one"] := by
  have hp : ∀ x ∈ [wLine1], x.passthrough := by
    intro x hx
    rw [List.mem_singleton] at hx
    subst hx
    exact wLine1_passthrough
  have h := claim10_oversized_line_stops_stream [wLine1] [wLine2] bigLine hp bigLine_unfit
  exact ⟨h.1, h.2.2.1, by decide⟩
